import Mathlib

/-!
Shallow embedding of `src/gemini.js`: a Vercel serverless handler that
proxies text-generation requests.  The handler validates the HTTP method
and the `prompt` field of the JSON body, calls the external generative
client once, and maps the result (or the thrown error) to a fixed JSON
envelope.  Module-level initialization (reading the API key, constructing
the client handle) is modelled as an explicit event list.
-/

namespace Gemini

/-- JavaScript values as far as the handler inspects them: the `prompt`
property is tested for truthiness and then passed on unchanged.  Numbers
are modelled as integers; object values are opaque references. -/
inductive JSVal where
  | undef
  | null
  | bool (b : Bool)
  | num (n : Int)
  | str (s : String)
  | objRef (id : Nat)
deriving DecidableEq, Repr

/-- JavaScript truthiness, as used by `if (!prompt)` on line 38 of
`src/gemini.js`. -/
def JSVal.truthy : JSVal → Bool
  | .undef => false
  | .null => false
  | .bool b => b
  | .num n => n != 0
  | .str s => s != ""
  | .objRef _ => true

/-- The shape of `req.body` after the platform's body parsing: absent
(`undefined`), JSON `null`, a non-null primitive, or an object with named
fields. -/
inductive Body where
  | undefined
  | null
  | prim (v : JSVal)
  | object (fields : List (String × JSVal))
deriving DecidableEq, Repr

/-- The destructuring `const { prompt } = req.body;` on line 36.
Destructuring `undefined` or `null` throws a TypeError (modelled as
`none`); destructuring a non-null primitive yields `undefined` for every
property; destructuring an object looks the field up. -/
def Body.getPrompt : Body → Option JSVal
  | .undefined => none
  | .null => none
  | .prim _ => some .undef
  | .object fields => some ((fields.lookup "prompt").getD .undef)

/-- The inbound HTTP request as the handler reads it: `req.method` and
`req.body`. -/
structure Request where
  method : String
  body : Body
deriving DecidableEq, Repr

/-- A value thrown by the generative client.  Only its `message` property
is read (line 55); `none` models a thrown value whose `message` is
`undefined`, in which case `JSON.stringify` drops the `details` key. -/
structure JSError where
  message : Option String
deriving DecidableEq, Repr

/-- The external generation capability: `model.generateContent(prompt)`
followed by `result.response` and `response.text()`, collapsed into one
call that either yields the generated text or throws. -/
def Gen : Type := JSVal → Except JSError String

/-- The JSON response envelope together with its HTTP status.  `none` in
an `Option` field means the key is absent from the JSON body. -/
structure Response where
  status : Nat
  success : Bool
  text : Option String
  error : Option String
  details : Option String
deriving DecidableEq, Repr

/-- Response for a non-POST method (lines 31-34). -/
def resp405 : Response :=
  ⟨405, false, none, some "Method Not Allowed. Only POST requests are supported.", none⟩

/-- Response for a missing or falsy prompt (lines 38-41). -/
def resp400 : Response :=
  ⟨400, false, none, some "Missing \"prompt\" in request body.", none⟩

/-- Response when generation succeeds with text `t` (line 50). -/
def resp200 (t : String) : Response :=
  ⟨200, true, some t, none, none⟩

/-- Response when generation throws `e` (line 55). -/
def resp500 (e : JSError) : Response :=
  ⟨500, false, none, some "Failed to generate AI insight.", e.message⟩

/-- Observable actions the handler performs, in order. -/
inductive Action where
  | callGen (arg : JSVal)
  | logErr
  | respond (r : Response)
deriving DecidableEq, Repr

/-- How one invocation ends: a response was sent, or an exception escaped
to the hosting platform. -/
inductive Outcome where
  | responded (r : Response)
  | crashed
deriving DecidableEq, Repr

/-- The HTTP status of the sent response, if one was sent. -/
def Outcome.status : Outcome → Option Nat
  | .responded r => some r.status
  | .crashed => none

/-- The exported handler (lines 29-57 of `src/gemini.js`), returning how
the invocation ends together with the ordered list of observable actions.
The `gen` argument is the external generative capability. -/
def handler (req : Request) (gen : Gen) : Outcome × List Action :=
  if req.method ≠ "POST" then
    (Outcome.responded resp405, [Action.respond resp405])
  else
    match req.body.getPrompt with
    | none => (Outcome.crashed, [])
    | some prompt =>
      if !prompt.truthy then
        (Outcome.responded resp400, [Action.respond resp400])
      else
        match gen prompt with
        | Except.ok t =>
          (Outcome.responded (resp200 t),
            [Action.callGen prompt, Action.respond (resp200 t)])
        | Except.error e =>
          (Outcome.responded (resp500 e),
            [Action.callGen prompt, Action.logErr, Action.respond (resp500 e)])

/-- Number of calls made to the external generation capability. -/
def callCount (as : List Action) : Nat :=
  (as.filter fun a =>
    match a with
    | Action.callGen _ => true
    | _ => false).length

/-- Number of responses sent. -/
def respondCount (as : List Action) : Nat :=
  (as.filter fun a =>
    match a with
    | Action.respond _ => true
    | _ => false).length

/-- The envelope invariant: `success=true` responses carry `text` and
never `error`/`details`; `success=false` responses carry `error` and
never `text`. -/
def Response.wellFormed (r : Response) : Bool :=
  if r.success then
    r.text.isSome && r.error.isNone && r.details.isNone
  else
    r.error.isSome && r.text.isNone

/-- A generation capability that always succeeds with a fixed text. -/
def genConst (t : String) : Gen := fun _ => Except.ok t

/-- A generation capability that always throws an Error with message `m`. -/
def genThrow (m : String) : Gen := fun _ => Except.error ⟨some m⟩

/-- Statements executed at module load time (lines 15-25 of
`src/gemini.js`), in source order. -/
inductive InitStep where
  | readApiKey
  | logMissingKey
  | constructClient
  | getModel
deriving DecidableEq, Repr

/-- The module-initialization sequence: read the credential from the
environment, log a diagnostic when it is absent, construct the
`GoogleGenerativeAI` handle, obtain the model handle. -/
def moduleInit (apiKeyPresent : Bool) : List InitStep :=
  [InitStep.readApiKey]
    ++ (if apiKeyPresent then [] else [InitStep.logMissingKey])
    ++ [InitStep.constructClient, InitStep.getModel]

/-- Events in the life of the module: an initialization step, or the
`n`-th handler invocation by the platform. -/
inductive ProcEvent where
  | init (s : InitStep)
  | invocation (n : Nat)
deriving DecidableEq, Repr

/-- The process-level event trace: module initialization runs once when
the module is first loaded, then the platform dispatches `n` handler
invocations. -/
def processTrace (apiKeyPresent : Bool) (n : Nat) : List ProcEvent :=
  (moduleInit apiKeyPresent).map ProcEvent.init
    ++ (List.range n).map ProcEvent.invocation

/-- `occursBefore a b t`: some occurrence of `a` strictly precedes some
occurrence of `b` in the trace `t`. -/
def occursBefore (a b : ProcEvent) : List ProcEvent → Bool
  | [] => false
  | x :: xs => if x = a then decide (b ∈ xs) else occursBefore a b xs

/-- C1: for every POST request with a valid (truthy) prompt and a
generation capability that succeeds returning text `T`, the handler
passes the prompt verbatim to the generation capability (the single
`callGen` action carries the prompt value itself) and responds with
status 200 and body `{success:true, text:T}`. -/
theorem c1_success_path (body : Body) (p : JSVal) (gen : Gen) (T : String)
    (hb : body.getPrompt = some p) (hp : p.truthy = true)
    (hg : gen p = Except.ok T) :
    handler ⟨"POST", body⟩ gen =
      (Outcome.responded ⟨200, true, some T, none, none⟩,
        [Action.callGen p, Action.respond ⟨200, true, some T, none, none⟩]) := by
  simp [handler, hb, hp, hg, resp200]

/-- C1 witness: spec scenario 1, `POST {prompt:"Hello"}` with the client
returning `"Hi there!"`. -/
theorem c1_success_path_witness :
    handler ⟨"POST", Body.object [("prompt", JSVal.str "Hello")]⟩
        (genConst "Hi there!") =
      (Outcome.responded ⟨200, true, some "Hi there!", none, none⟩,
        [Action.callGen (JSVal.str "Hello"),
          Action.respond ⟨200, true, some "Hi there!", none, none⟩]) :=
  c1_success_path (Body.object [("prompt", JSVal.str "Hello")])
    (JSVal.str "Hello") (genConst "Hi there!") "Hi there!" rfl rfl rfl

/-- C2: for every POST request with a valid prompt and a generation
capability that fails with message `M`, the handler catches the failure,
logs it, and responds with status 500 and body exactly
`{success:false, error:"Failed to generate AI insight.", details:M}`;
no exception propagates (the outcome is `responded`, not `crashed`). -/
theorem c2_failure_path (body : Body) (p : JSVal) (gen : Gen) (M : String)
    (hb : body.getPrompt = some p) (hp : p.truthy = true)
    (hg : gen p = Except.error ⟨some M⟩) :
    handler ⟨"POST", body⟩ gen =
      (Outcome.responded ⟨500, false, none,
          some "Failed to generate AI insight.", some M⟩,
        [Action.callGen p, Action.logErr,
          Action.respond ⟨500, false, none,
            some "Failed to generate AI insight.", some M⟩]) := by
  simp [handler, hb, hp, hg, resp500]

/-- C2 witness: spec scenario 4, `POST {prompt:"X"}` with the client
throwing an error whose message is `"rate limit exceeded"`. -/
theorem c2_failure_path_witness :
    handler ⟨"POST", Body.object [("prompt", JSVal.str "X")]⟩
        (genThrow "rate limit exceeded") =
      (Outcome.responded ⟨500, false, none,
          some "Failed to generate AI insight.", some "rate limit exceeded"⟩,
        [Action.callGen (JSVal.str "X"), Action.logErr,
          Action.respond ⟨500, false, none,
            some "Failed to generate AI insight.", some "rate limit exceeded"⟩]) :=
  c2_failure_path (Body.object [("prompt", JSVal.str "X")]) (JSVal.str "X")
    (genThrow "rate limit exceeded") "rate limit exceeded" rfl rfl rfl

/-- C3: for every request whose method is not POST, the handler responds
with status 405 and body
`{success:false, error:"Method Not Allowed. Only POST requests are supported."}`,
regardless of the request body. -/
theorem c3_method_not_allowed (m : String) (body : Body) (gen : Gen)
    (h : m ≠ "POST") :
    handler ⟨m, body⟩ gen =
      (Outcome.responded ⟨405, false, none,
          some "Method Not Allowed. Only POST requests are supported.", none⟩,
        [Action.respond ⟨405, false, none,
          some "Method Not Allowed. Only POST requests are supported.", none⟩]) := by
  simp [handler, h, resp405]

/-- C3 witness: spec scenario 2, a GET request (here with a `null` body,
showing the body is irrelevant). -/
theorem c3_method_not_allowed_witness :
    handler ⟨"GET", Body.null⟩ (genConst "ok") =
      (Outcome.responded ⟨405, false, none,
          some "Method Not Allowed. Only POST requests are supported.", none⟩,
        [Action.respond ⟨405, false, none,
          some "Method Not Allowed. Only POST requests are supported.", none⟩]) :=
  c3_method_not_allowed "GET" Body.null (genConst "ok") (by decide)

/-- C4: for every POST request whose (destructurable) body yields a
non-truthy prompt — absent field, empty string, or any other falsy value
— the handler responds with status 400 and body
`{success:false, error:'Missing "prompt" in request body.'}`; and any
body yielding a truthy prompt passes the check (the response status is
never 400). -/
theorem c4_prompt_validation (body : Body) (p : JSVal) (gen : Gen)
    (hb : body.getPrompt = some p) :
    (p.truthy = false →
      handler ⟨"POST", body⟩ gen =
        (Outcome.responded ⟨400, false, none,
            some "Missing \"prompt\" in request body.", none⟩,
          [Action.respond ⟨400, false, none,
            some "Missing \"prompt\" in request body.", none⟩])) ∧
    (p.truthy = true →
      (handler ⟨"POST", body⟩ gen).1.status ≠ some 400) := by
  constructor
  · intro h
    simp [handler, hb, h, resp400]
  · intro h
    cases hg : gen p <;>
      simp [handler, hb, h, hg, Outcome.status, resp200, resp500]

/-- C4 witness: spec scenario 3, `POST {}` with no prompt field. -/
theorem c4_prompt_validation_witness :
    handler ⟨"POST", Body.object []⟩ (genConst "ok") =
      (Outcome.responded ⟨400, false, none,
          some "Missing \"prompt\" in request body.", none⟩,
        [Action.respond ⟨400, false, none,
          some "Missing \"prompt\" in request body.", none⟩]) :=
  (c4_prompt_validation (Body.object []) JSVal.undef (genConst "ok") rfl).1 rfl

/-- C5: validation checks run in order with the first failing check
short-circuiting: the method check precedes the prompt check, so every
non-POST request — whatever its body, including one with a missing
prompt — gets 405 (never 400), and a 400 response can only arise from a
POST request. -/
theorem c5_check_order (req : Request) (gen : Gen) :
    (req.method ≠ "POST" →
      handler req gen = (Outcome.responded resp405, [Action.respond resp405])) ∧
    ((handler req gen).1.status = some 400 → req.method = "POST") := by
  constructor
  · intro h
    simp [handler, h]
  · intro h
    by_cases hm : req.method = "POST"
    · exact hm
    · exfalso
      simp [handler, hm, resp405, Outcome.status] at h

/-- C5 witness: a GET request with a missing prompt gets 405, not 400. -/
theorem c5_check_order_witness :
    handler ⟨"GET", Body.object []⟩ (genConst "ok") =
      (Outcome.responded resp405, [Action.respond resp405]) :=
  (c5_check_order ⟨"GET", Body.object []⟩ (genConst "ok")).1 (by decide)

/-- C6: every request rejected by local validation (non-POST method, or
missing/falsy prompt) causes zero calls to the external generation
capability, and any call to it implies both checks passed: the method was
POST and the body yielded a truthy prompt. -/
theorem c6_no_call_on_rejection (req : Request) (gen : Gen) :
    ((handler req gen).1 = Outcome.responded resp405 ∨
        (handler req gen).1 = Outcome.responded resp400 →
      callCount (handler req gen).2 = 0) ∧
    (callCount (handler req gen).2 ≠ 0 →
      req.method = "POST" ∧
        ∃ p, req.body.getPrompt = some p ∧ p.truthy = true) := by
  obtain ⟨m, b⟩ := req
  by_cases hm : m = "POST"
  · subst hm
    cases hb : b.getPrompt with
    | none => simp [handler, hb, callCount]
    | some p =>
      by_cases hp : p.truthy
      · cases hg : gen p <;>
          simp [handler, hb, hp, hg, callCount, resp200, resp500, resp405,
            resp400]
      · simp at hp
        simp [handler, hb, hp, callCount]
  · simp [handler, hm, callCount]

/-- C6 witness: a GET request (rejected with 405) makes zero calls to the
generation capability. -/
theorem c6_no_call_on_rejection_witness :
    callCount (handler ⟨"GET", Body.object []⟩ (genConst "ok")).2 = 0 :=
  (c6_no_call_on_rejection ⟨"GET", Body.object []⟩ (genConst "ok")).1
    (Or.inl rfl)

/-- C7: every response the handler sends satisfies the envelope
invariant: `success=true` responses carry `text` and never `error` or
`details`; `success=false` responses carry `error` and never `text`.
This covers all four response paths (200, 400, 405, 500). -/
theorem c7_envelope_invariant (req : Request) (gen : Gen) (r : Response)
    (h : (handler req gen).1 = Outcome.responded r) :
    r.wellFormed = true := by
  obtain ⟨m, b⟩ := req
  by_cases hm : m = "POST"
  · subst hm
    cases hb : b.getPrompt with
    | none => simp [handler, hb] at h
    | some p =>
      by_cases hp : p.truthy
      · cases hg : gen p with
        | ok t =>
          simp [handler, hb, hp, hg, resp200] at h
          simp [← h, Response.wellFormed]
        | error e =>
          simp [handler, hb, hp, hg, resp500] at h
          simp [← h, Response.wellFormed]
      · simp at hp
        simp [handler, hb, hp, resp400] at h
        simp [← h, Response.wellFormed]
  · simp [handler, hm, resp405] at h
    simp [← h, Response.wellFormed]

/-- C7 witness: the 200 envelope produced for spec scenario 1 satisfies
the invariant. -/
theorem c7_envelope_invariant_witness :
    Response.wellFormed ⟨200, true, some "Hi there!", none, none⟩ = true :=
  c7_envelope_invariant ⟨"POST", Body.object [("prompt", JSVal.str "Hello")]⟩
    (genConst "Hi there!") ⟨200, true, some "Hi there!", none, none⟩ rfl

/-- C8: the handler calls the external generation capability at most once
per invocation; on the path where both validation checks pass it makes
exactly one call, whether generation succeeds or fails — no retry ever
occurs. -/
theorem c8_at_most_one_call (req : Request) (gen : Gen) :
    callCount (handler req gen).2 ≤ 1 ∧
    (req.method = "POST" →
      ∀ p, req.body.getPrompt = some p → p.truthy = true →
        callCount (handler req gen).2 = 1) := by
  obtain ⟨m, b⟩ := req
  by_cases hm : m = "POST"
  · subst hm
    cases hb : b.getPrompt with
    | none => simp [handler, hb, callCount]
    | some p =>
      by_cases hp : p.truthy
      · cases hg : gen p <;> simp [handler, hb, hp, hg, callCount]
      · simp at hp
        simp [handler, hb, hp, callCount]
  · simp [handler, hm, callCount]

/-- C8 witness: with a failing generation capability the handler still
makes exactly one call (the failure is terminal, no retry). -/
theorem c8_at_most_one_call_witness :
    callCount (handler ⟨"POST", Body.object [("prompt", JSVal.str "X")]⟩
      (genThrow "rate limit exceeded")).2 = 1 :=
  (c8_at_most_one_call ⟨"POST", Body.object [("prompt", JSVal.str "X")]⟩
      (genThrow "rate limit exceeded")).2 rfl (JSVal.str "X") rfl rfl

/-- Dispatching a batch of invocations in order.  All module-level
bindings in the source are `const` and never reassigned, so the handler
carries no state from one invocation to the next: each result is a
function of that invocation's own request alone. -/
def runInvocations (gen : Gen) : List Request → List (Outcome × List Action)
  | [] => []
  | r :: rs => handler r gen :: runInvocations gen rs

/-- C9 counterexample: the claim says the client handle is never created
before the handler's first invocation, but in the process trace with the
key present and one invocation the `new GoogleGenerativeAI(...)`
construction (line 24) occurs strictly before invocation 0 — it runs at
module load. -/
theorem c9_counterexample :
    occursBefore (ProcEvent.init InitStep.constructClient)
      (ProcEvent.invocation 0) (processTrace true 1) = true := by
  decide

/-- C9 amended: the client handle is constructed eagerly, exactly once
during module initialization, and therefore before every handler
invocation; and no mutable state is shared across invocations — each
invocation's result is a function of its own request and the generation
capability alone. -/
theorem c9_eager_client_stateless (k : Bool) (n m : Nat) (hm : m < n) :
    (moduleInit k).count InitStep.constructClient = 1 ∧
    occursBefore (ProcEvent.init InitStep.constructClient)
      (ProcEvent.invocation m) (processTrace k n) = true ∧
    ∀ (gen : Gen) (reqs : List Request),
      runInvocations gen reqs = reqs.map fun r => handler r gen := by
  refine ⟨by cases k <;> decide, ?_, ?_⟩
  · cases k <;>
      simp [processTrace, moduleInit, occursBefore, List.mem_map,
        List.mem_range, hm]
  · intro gen reqs
    induction reqs with
    | nil => rfl
    | cons r rs ih => simp [runInvocations, ih]

/-- C9 amended witness: with the key present and two invocations, the
client is constructed once, before invocation 0, and a singleton batch
behaves as the pointwise handler. -/
theorem c9_eager_client_stateless_witness :
    ((moduleInit true).count InitStep.constructClient = 1 ∧
      occursBefore (ProcEvent.init InitStep.constructClient)
        (ProcEvent.invocation 0) (processTrace true 2) = true) ∧
    runInvocations (genConst "ok") [⟨"GET", Body.null⟩] =
      [handler ⟨"GET", Body.null⟩ (genConst "ok")] :=
  ⟨⟨(c9_eager_client_stateless true 2 0 (by decide)).1,
    (c9_eager_client_stateless true 2 0 (by decide)).2.1⟩,
    (c9_eager_client_stateless true 2 0 (by decide)).2.2 (genConst "ok")
      [⟨"GET", Body.null⟩]⟩

/-- C10 counterexample: the claim says the handler never lets an
exception escape for any body shape, but a POST request whose parsed
body is JSON `null` makes the destructuring on line 36 throw a TypeError
outside the try/catch: the invocation crashes and no response is sent. -/
theorem c10_counterexample :
    (handler ⟨"POST", Body.null⟩ (genConst "ok")).1 = Outcome.crashed ∧
    respondCount (handler ⟨"POST", Body.null⟩ (genConst "ok")).2 = 0 :=
  ⟨rfl, rfl⟩

/-- C10 amended: for every request whose parsed body is neither
`undefined` nor JSON `null` (so the destructuring on line 36 cannot
throw), and every behavior of the generation capability — success or a
thrown value with or without a message — the handler completes normally
and sends exactly one response. -/
theorem c10_total_on_destructurable_bodies (req : Request) (gen : Gen)
    (h : req.body ≠ Body.undefined ∧ req.body ≠ Body.null) :
    (∃ r, (handler req gen).1 = Outcome.responded r) ∧
    respondCount (handler req gen).2 = 1 := by
  obtain ⟨m, b⟩ := req
  obtain ⟨h1, h2⟩ := h
  by_cases hm : m = "POST"
  · subst hm
    cases b with
    | undefined => exact absurd rfl h1
    | null => exact absurd rfl h2
    | prim v =>
      simp [handler, Body.getPrompt, JSVal.truthy, respondCount]
    | object fields =>
      cases hb : Body.getPrompt (Body.object fields) with
      | none => simp [Body.getPrompt] at hb
      | some p =>
        by_cases hp : p.truthy
        · cases hg : gen p <;>
            simp [handler, hb, hp, hg, respondCount]
        · simp at hp
          simp [handler, hb, hp, respondCount]
  · simp [handler, hm, respondCount]

/-- C10 amended witness: a POST request whose body is the primitive `7`
(destructurable, prompt `undefined`) completes with exactly one
response. -/
theorem c10_total_on_destructurable_bodies_witness :
    (∃ r, (handler ⟨"POST", Body.prim (JSVal.num 7)⟩
        (genThrow "x")).1 = Outcome.responded r) ∧
    respondCount (handler ⟨"POST", Body.prim (JSVal.num 7)⟩
        (genThrow "x")).2 = 1 :=
  c10_total_on_destructurable_bodies ⟨"POST", Body.prim (JSVal.num 7)⟩
    (genThrow "x") (by decide)

end Gemini
